import Mathlib

/-!
Verification of the SDO responder in ThermSDO.py.

The program answers CANopen-style SDO upload requests on a CAN bus.  The
whole per-frame hot path is the notifier handler `callback` (ThermSDO.py,
lines 111-156): it inspects the arbitration ID, parses the first four data
bytes with struct.unpack, dispatches on the object index / sub-index, mutates
the message in place and sends it back.  We embed that handler faithfully,
including the places where the Python code can raise an uncaught exception
(struct.error on short frames, KeyError in simulation mode, IndexError on a
short bytearray item assignment), which the embedding records as a `crash`
outcome distinct from "returned without sending".

Bytes are modelled as natural numbers; the four float32 payload bytes that
struct.pack of a temperature reading would produce are carried opaquely as a
list of bytes inside `PointResult.point`, since no claim depends on
floating-point values, only on whether a reading is available at all.
-/

namespace ThermSDO

/-- A CAN frame as delivered by python-can: arbitration ID plus a bytearray
of data (its length is the DLC, at most 8 on classic CAN). -/
structure CanMsg where
  arbitration_id : Nat
  data : List Nat
deriving Repr, DecidableEq

/-- The value of `getDataPoint()` (ThermSDO.py lines 78-106).  When `i2cBus`
is `None` (simulation mode) the function returns the dict
`\x7b'message': 'Simulation mode enabled.'\x7d`, which has no `hiResC` or
`hiResF` key; otherwise it returns a dict holding the readings.  The two
byte lists are the little-endian float32 encodings that struct.pack produces
from the `hiResC` (Celsius) and `hiResF` (Fahrenheit) entries. -/
inductive PointResult where
  | simMessage : PointResult
  | point : List Nat → List Nat → PointResult
deriving Repr, DecidableEq

/-- Outcome of one invocation of the notifier callback: an uncaught Python
exception, a silent return, or a frame handed to `canBus.send`. -/
inductive CallbackResult where
  | crash : CallbackResult
  | noSend : CallbackResult
  | sent : CanMsg → CallbackResult
deriving Repr, DecidableEq

/-- struct.pack of an unsigned 32-bit value in little-endian order: four
bytes, least significant first (format character L with the < modifier,
as used for the abort codes at lines 122, 135, 141, 148 and 152). -/
def packL (n : Nat) : List Nat :=
  [n % 256, n / 256 % 256, n / 65536 % 256, n / 16777216 % 256]

/-- struct.unpack of the first four data bytes with the byte / u16-LE / byte
layout used at ThermSDO.py line 117: (command, index, subidx). -/
def unpackBHB (d : List Nat) : Nat × Nat × Nat :=
  (d.getD 0 0, d.getD 1 0 + 256 * d.getD 2 0, d.getD 3 0)

/-- The symmetric encoding of the same layout: command byte, 16-bit index in
little-endian order, sub-index byte. -/
def packBHB (cmd idx sub : Nat) : List Nat :=
  [cmd % 256, idx % 256, idx / 256 % 256, sub % 256]

/-- bytearray slice assignment `data[4:8] = p`: replaces the (possibly
shorter) slice at positions 4..7 by `p`.  In Python this never raises, even
when the bytearray is shorter than 8, because slice assignment may change
the length. -/
def setSlice48 (d p : List Nat) : List Nat :=
  d.take 4 ++ p ++ d.drop 8

/-- bytearray item assignment `data[i] = v`: raises IndexError (modelled as
`none`) when `i` is out of range. -/
def setByte (d : List Nat) (i v : Nat) : Option (List Nat) :=
  if i < d.length then some (d.set i v) else none

/-- The notifier callback handler (ThermSDO.py lines 111-156), parametrised
by the process-wide configuration `theNode` and `theIndx` and by the state
of the sensor (`PointResult`, the value `getDataPoint()` would return).
`none` in the intermediate `Option (List Nat)` marks a point where the
Python code raises: struct.error when fewer than 4 data bytes are present,
IndexError from `msg.data[4] = 0x02` on a 4-byte bytearray, KeyError from
the `hiResC` / `hiResF` dict lookups in simulation mode. -/
def callback (theNode theIndx : Nat) (sensor : PointResult) (msg : CanMsg) :
    CallbackResult :=
  let hiByte := (msg.arbitration_id >>> 8) % 256
  let loByte := msg.arbitration_id % 256
  if 0x06 = hiByte ∧ theNode = loByte then
    if msg.data.length < 4 then CallbackResult.crash
    else
      let u := unpackBHB msg.data
      let command := u.1
      let index := u.2.1
      let subidx := u.2.2
      let newData : Option (List Nat) :=
        if theIndx = index then
          if ¬ (0x40 = command) then
            some (setSlice48 (msg.data.set 0 0x80) (packL 0x06010002))
          else if 0 = subidx then
            setByte (msg.data.set 0 0x4f) 4 0x02
          else if 1 = subidx then
            match sensor with
            | PointResult.simMessage => none
            | PointResult.point c _ => some (setSlice48 (msg.data.set 0 0x43) c)
          else if 2 = subidx then
            match sensor with
            | PointResult.simMessage => none
            | PointResult.point _ f => some (setSlice48 (msg.data.set 0 0x43) f)
          else
            some (setSlice48 (msg.data.set 0 0x80) (packL 0x06090011))
        else if 0x1000 = index then
          if ¬ (0x40 = command) then
            some (setSlice48 (msg.data.set 0 0x80) (packL 0x06010002))
          else if 0 = subidx then
            some (setSlice48 (msg.data.set 0 0x43) [0, 0, 0, 0])
          else
            some (setSlice48 (msg.data.set 0 0x80) (packL 0x06090011))
        else
          some (setSlice48 (msg.data.set 0 0x80) (packL 0x06020000))
      match newData with
      | none => CallbackResult.crash
      | some d => CallbackResult.sent { arbitration_id := 0x580 + theNode, data := d }
  else
    CallbackResult.noSend

/-- C1 counterexample: at the default configuration (node 43, index 0x6000),
a write-style request (command 0x2f) naming the unknown index 0x9999 is NOT
answered with Abort(0x06010002) echoed as the claim predicts; the code
checks the index before the command and answers Abort(0x06020000). -/
theorem c1_counterexample :
    callback 43 0x6000 PointResult.simMessage
      { arbitration_id := 0x62b, data := [0x2f, 0x99, 0x99, 0x00, 0, 0, 0, 0] } ≠
    CallbackResult.sent
      { arbitration_id := 0x5ab,
        data := [0x80, 0x99, 0x99, 0x00, 0x02, 0x00, 0x01, 0x06] } := by
  decide

/-- C1 (amended): for every addressed request with at least 4 data bytes
whose command byte is not 0x40 and whose index IS one of the two known
object indices (the configured temperature index or 0x1000), the response
is Abort(0x06010002) with index and sub-index echoed unchanged.  For any
other index the command byte is never inspected and the code answers
Abort(0x06020000) instead. -/
theorem c1_nonupload_known_index_abort (theNode theIndx : Nat)
    (sensor : PointResult) (arb d0 d1 d2 d3 : Nat) (rest : List Nat)
    (h1 : (arb >>> 8) % 256 = 0x06)
    (h2 : arb % 256 = theNode)
    (hcmd : d0 ≠ 0x40)
    (hidx : d1 + 256 * d2 = theIndx ∨ d1 + 256 * d2 = 0x1000) :
    callback theNode theIndx sensor
      { arbitration_id := arb, data := d0 :: d1 :: d2 :: d3 :: rest } =
    CallbackResult.sent
      { arbitration_id := 0x580 + theNode,
        data := 0x80 :: d1 :: d2 :: d3 :: 0x02 :: 0x00 :: 0x01 :: 0x06 :: rest.drop 4 } := by
  rcases hidx with h | h
  · simp [callback, unpackBHB, setSlice48, packL, h1, h2, h, Ne.symm hcmd]
  · by_cases hT : theIndx = d1 + 256 * d2
    · simp [callback, unpackBHB, setSlice48, packL, h1, h2, hT.symm, Ne.symm hcmd]
    · simp [callback, unpackBHB, setSlice48, packL, h1, h2, h, hT, Ne.symm hcmd]

/-- Witness for the amended C1: a download-initiate command (0x2f) aimed at
the configured temperature index aborts with 0x06010002, echoed. -/
theorem c1_nonupload_known_index_abort_witness :
    callback 43 0x6000 PointResult.simMessage
      { arbitration_id := 0x62b, data := [0x2f, 0x00, 0x60, 0x05, 9, 9, 9, 9] } =
    CallbackResult.sent
      { arbitration_id := 0x580 + 43,
        data := [0x80, 0x00, 0x60, 0x05, 0x02, 0x00, 0x01, 0x06] } := by
  simpa using
    c1_nonupload_known_index_abort 43 0x6000 PointResult.simMessage
      0x62b 0x2f 0x00 0x60 0x05 [9, 9, 9, 9]
      (by decide) (by decide) (by decide) (Or.inl (by decide))

/-- C2 counterexample: an addressed frame with only 3 data bytes is NOT
handled like a NotAddressed frame (a silent return): struct.unpack at line
117 raises struct.error. -/
theorem c2_counterexample :
    callback 43 0x6000 PointResult.simMessage
      { arbitration_id := 0x62b, data := [0x40, 0x00, 0x60] } ≠
    CallbackResult.noSend := by
  decide

/-- C2 (amended): for every addressed frame whose data field holds fewer
than 4 bytes, struct.unpack raises struct.error out of the callback; the
handler sends no response frame, but the decode step is not total. -/
theorem c2_short_frame_crashes (theNode theIndx : Nat) (sensor : PointResult)
    (msg : CanMsg)
    (h1 : (msg.arbitration_id >>> 8) % 256 = 0x06)
    (h2 : msg.arbitration_id % 256 = theNode)
    (hlen : msg.data.length < 4) :
    callback theNode theIndx sensor msg = CallbackResult.crash := by
  unfold callback
  rw [if_pos ⟨h1.symm, h2.symm⟩, if_pos hlen]

/-- Witness for the amended C2 at a concrete 1-byte frame. -/
theorem c2_short_frame_witness :
    callback 43 0x6000 PointResult.simMessage
      { arbitration_id := 0x62b, data := [0x40] } = CallbackResult.crash :=
  c2_short_frame_crashes 43 0x6000 PointResult.simMessage
    { arbitration_id := 0x62b, data := [0x40] } (by decide) (by decide) (by decide)

/-- C3: in simulation mode (i2cBus is None) an addressed upload of the
temperature object, sub-index 1 or 2, does NOT produce a response frame:
`getDataPoint()` returns the diagnostic dict without a `hiResC` / `hiResF`
key, so the lookup at line 129 / 132 raises KeyError and nothing is sent —
contradicting the documented requirement that the responder still answer. -/
theorem c3_sim_mode_upload_crashes :
    callback 43 0x6000 PointResult.simMessage
      { arbitration_id := 0x62b, data := [0x40, 0x00, 0x60, 0x01, 0, 0, 0, 0] } =
      CallbackResult.crash ∧
    callback 43 0x6000 PointResult.simMessage
      { arbitration_id := 0x62b, data := [0x40, 0x00, 0x60, 0x02, 0, 0, 0, 0] } =
      CallbackResult.crash := by
  decide

/-- C4 counterexample: an upload of sub-index 0 of the temperature object
whose request carried nonzero bytes at positions 5..7 is NOT answered with
payload [0x02, 0, 0, 0]; only byte 4 is written, bytes 5..7 keep the
incoming values. -/
theorem c4_counterexample :
    callback 43 0x6000 PointResult.simMessage
      { arbitration_id := 0x62b,
        data := [0x40, 0x00, 0x60, 0x00, 0xAA, 0xBB, 0xCC, 0xDD] } ≠
    CallbackResult.sent
      { arbitration_id := 0x5ab,
        data := [0x4f, 0x00, 0x60, 0x00, 0x02, 0x00, 0x00, 0x00] } := by
  decide

/-- C4 (amended): for every addressed 8-byte request for the temperature
object with sub-index 0 and command 0x40, the response has command byte
0x4f, echoed index / sub-index, byte 4 equal to the sub-entry count 2, and
bytes 5..7 equal to the request's bytes 5..7 (the code writes only
`msg.data[4]` and leaves the rest of the payload as received). -/
theorem c4_subzero_descriptor (theNode theIndx : Nat) (sensor : PointResult)
    (arb d1 d2 b4 b5 b6 b7 : Nat)
    (h1 : (arb >>> 8) % 256 = 0x06)
    (h2 : arb % 256 = theNode)
    (hidx : d1 + 256 * d2 = theIndx) :
    callback theNode theIndx sensor
      { arbitration_id := arb, data := [0x40, d1, d2, 0x00, b4, b5, b6, b7] } =
    CallbackResult.sent
      { arbitration_id := 0x580 + theNode,
        data := [0x4f, d1, d2, 0x00, 0x02, b5, b6, b7] } := by
  simp [callback, unpackBHB, setByte, h1, h2, hidx]

/-- Witness for the amended C4: with request bytes 5..7 equal to 0xBB,
0xCC, 0xDD, the response keeps exactly those bytes. -/
theorem c4_subzero_descriptor_witness :
    callback 43 0x6000 PointResult.simMessage
      { arbitration_id := 0x62b,
        data := [0x40, 0x00, 0x60, 0x00, 0xAA, 0xBB, 0xCC, 0xDD] } =
    CallbackResult.sent
      { arbitration_id := 0x580 + 43,
        data := [0x4f, 0x00, 0x60, 0x00, 0x02, 0xBB, 0xCC, 0xDD] } :=
  c4_subzero_descriptor 43 0x6000 PointResult.simMessage
    0x62b 0x00 0x60 0xAA 0xBB 0xCC 0xDD (by decide) (by decide) (by decide)

/-- C5: every frame the callback actually hands to `canBus.send` — success
or abort, whatever the branch — carries arbitration ID 0x580 plus the
configured node ID, and its data bytes 1..3 are the request's data bytes
1..3 (little-endian index and sub-index, echoed unconditionally). -/
theorem c5_response_framing (theNode theIndx : Nat) (sensor : PointResult)
    (arb d0 d1 d2 d3 : Nat) (rest : List Nat) (m : CanMsg)
    (hsent : callback theNode theIndx sensor
      { arbitration_id := arb, data := d0 :: d1 :: d2 :: d3 :: rest } =
      CallbackResult.sent m) :
    m.arbitration_id = 0x580 + theNode ∧
    m.data.getD 1 0 = d1 ∧ m.data.getD 2 0 = d2 ∧ m.data.getD 3 0 = d3 := by
  cases sensor <;> simp only [callback, unpackBHB, setByte] at hsent <;>
    repeat' split at hsent
  any_goals simp only [reduceCtorEq] at hsent
  all_goals (rename_i d heq; injection hsent with hm; subst hm)
  all_goals refine ⟨rfl, ?_⟩
  all_goals repeat' split at heq
  all_goals
    first
      | simp only [reduceCtorEq] at heq
      | (injection heq with hd; subst hd; simp [setSlice48, packL])

/-- Witness for C5: a successful Celsius upload is framed with arbitration
ID 0x580 + 43 and echoes the request bytes 1..3. -/
theorem c5_response_framing_witness :
    (CanMsg.mk 0x5ab [0x43, 0x00, 0x60, 0x01, 1, 2, 3, 4]).arbitration_id =
      0x580 + 43 ∧
    (CanMsg.mk 0x5ab [0x43, 0x00, 0x60, 0x01, 1, 2, 3, 4]).data.getD 1 0 = 0x00 ∧
    (CanMsg.mk 0x5ab [0x43, 0x00, 0x60, 0x01, 1, 2, 3, 4]).data.getD 2 0 = 0x60 ∧
    (CanMsg.mk 0x5ab [0x43, 0x00, 0x60, 0x01, 1, 2, 3, 4]).data.getD 3 0 = 0x01 :=
  c5_response_framing 43 0x6000 (PointResult.point [1, 2, 3, 4] [5, 6, 7, 8])
    0x62b 0x40 0x00 0x60 0x01 [9, 9, 9, 9]
    (CanMsg.mk 0x5ab [0x43, 0x00, 0x60, 0x01, 1, 2, 3, 4]) (by decide)

/-- C6: a frame whose arbitration ID does not carry function code 0x06 in
its high byte together with the configured node ID in its low byte is
ignored: the callback returns without sending (and, in the source, without
touching any state — the addressed branch is never entered). -/
theorem c6_not_addressed_no_send (theNode theIndx : Nat) (sensor : PointResult)
    (msg : CanMsg)
    (h : ¬ ((msg.arbitration_id >>> 8) % 256 = 0x06 ∧
            msg.arbitration_id % 256 = theNode)) :
    callback theNode theIndx sensor msg = CallbackResult.noSend := by
  unfold callback
  rw [if_neg]
  rintro ⟨ha, hb⟩
  exact h ⟨ha.symm, hb.symm⟩

/-- Witness for C6 at a concrete frame addressed to function code 0x01. -/
theorem c6_not_addressed_witness :
    callback 43 0x6000 PointResult.simMessage
      { arbitration_id := 0x123, data := [0x40, 0x00, 0x60, 0x00, 0, 0, 0, 0] } =
    CallbackResult.noSend :=
  c6_not_addressed_no_send 43 0x6000 PointResult.simMessage
    { arbitration_id := 0x123, data := [0x40, 0x00, 0x60, 0x00, 0, 0, 0, 0] }
    (by decide)

/-- C7: an addressed upload (command 0x40) naming a known object index but
an absent sub-index — the configured temperature index with sub-index other
than 0, 1, 2, or index 0x1000 (not shadowed by the temperature index) with
nonzero sub-index — is answered with Abort(0x06090011), echoed. -/
theorem c7_missing_subindex_abort (theNode theIndx : Nat)
    (sensor : PointResult) (arb d1 d2 d3 : Nat) (rest : List Nat)
    (h1 : (arb >>> 8) % 256 = 0x06)
    (h2 : arb % 256 = theNode)
    (hsub : (d1 + 256 * d2 = theIndx ∧ d3 ≠ 0 ∧ d3 ≠ 1 ∧ d3 ≠ 2) ∨
            (d1 + 256 * d2 = 0x1000 ∧ theIndx ≠ 0x1000 ∧ d3 ≠ 0)) :
    callback theNode theIndx sensor
      { arbitration_id := arb, data := 0x40 :: d1 :: d2 :: d3 :: rest } =
    CallbackResult.sent
      { arbitration_id := 0x580 + theNode,
        data := 0x80 :: d1 :: d2 :: d3 :: 0x11 :: 0x00 :: 0x09 :: 0x06 :: rest.drop 4 } := by
  rcases hsub with ⟨h, e0, e1, e2⟩ | ⟨h, hT, e0⟩
  · simp [callback, unpackBHB, setSlice48, packL, h1, h2, h,
      Ne.symm e0, Ne.symm e1, Ne.symm e2]
  · simp [callback, unpackBHB, setSlice48, packL, h1, h2, h, hT, Ne.symm e0]

/-- Witness for C7: sub-index 3 of the temperature object aborts with
0x06090011. -/
theorem c7_missing_subindex_abort_witness :
    callback 43 0x6000 PointResult.simMessage
      { arbitration_id := 0x62b, data := [0x40, 0x00, 0x60, 0x03, 9, 9, 9, 9] } =
    CallbackResult.sent
      { arbitration_id := 0x580 + 43,
        data := [0x80, 0x00, 0x60, 0x03, 0x11, 0x00, 0x09, 0x06] } := by
  simpa using
    c7_missing_subindex_abort 43 0x6000 PointResult.simMessage
      0x62b 0x00 0x60 0x03 [9, 9, 9, 9] (by decide) (by decide)
      (Or.inl ⟨by decide, by decide, by decide, by decide⟩)

/-- C8: an addressed upload (command 0x40) naming an index that is neither
the configured temperature index nor 0x1000 is answered with
Abort(0x06020000): response byte 0 is 0x80 and bytes 4..7 hold 0x06020000
little-endian, i.e. 0x00, 0x00, 0x02, 0x06, with index and sub-index
echoed. -/
theorem c8_unknown_index_abort (theNode theIndx : Nat) (sensor : PointResult)
    (arb d1 d2 d3 : Nat) (rest : List Nat)
    (h1 : (arb >>> 8) % 256 = 0x06)
    (h2 : arb % 256 = theNode)
    (hA : d1 + 256 * d2 ≠ theIndx)
    (hB : d1 + 256 * d2 ≠ 0x1000) :
    callback theNode theIndx sensor
      { arbitration_id := arb, data := 0x40 :: d1 :: d2 :: d3 :: rest } =
    CallbackResult.sent
      { arbitration_id := 0x580 + theNode,
        data := 0x80 :: d1 :: d2 :: d3 :: 0x00 :: 0x00 :: 0x02 :: 0x06 :: rest.drop 4 } := by
  simp [callback, unpackBHB, setSlice48, packL, h1, h2, Ne.symm hA, Ne.symm hB]

/-- Witness for C8: index 0x9999 aborts with 0x06020000. -/
theorem c8_unknown_index_abort_witness :
    callback 43 0x6000 PointResult.simMessage
      { arbitration_id := 0x62b, data := [0x40, 0x99, 0x99, 0x00, 9, 9, 9, 9] } =
    CallbackResult.sent
      { arbitration_id := 0x580 + 43,
        data := [0x80, 0x99, 0x99, 0x00, 0x00, 0x00, 0x02, 0x06] } := by
  simpa using
    c8_unknown_index_abort 43 0x6000 PointResult.simMessage
      0x62b 0x99 0x99 0x00 [9, 9, 9, 9]
      (by decide) (by decide) (by decide) (by decide)

/-- C9: encoding a command byte, a 16-bit index (little-endian) and an
8-bit sub-index into the frame layout of line 117 and parsing it back with
the same layout reproduces the original values. -/
theorem c9_roundtrip (cmd idx sub : Nat)
    (h1 : cmd < 256) (h2 : idx < 65536) (h3 : sub < 256) :
    unpackBHB (packBHB cmd idx sub) = (cmd, idx, sub) := by
  simp only [packBHB, unpackBHB, List.getD]
  refine Prod.ext ?_ (Prod.ext ?_ ?_) <;> simp <;> omega

/-- Witness for C9 at the default upload request fields. -/
theorem c9_roundtrip_witness :
    unpackBHB (packBHB 0x40 0x6000 0x02) = (0x40, 0x6000, 0x02) :=
  c9_roundtrip 0x40 0x6000 0x02 (by decide) (by decide) (by decide)

/-- C10: when the configured temperature index is set to 0x1000, the
temperature branch (tested first, line 118) shadows the device-type stub
(line 137): an addressed upload of index 0x1000, sub-index 0 returns the
temperature descriptor (command byte 0x4f, byte 4 = 2, bytes 5..7 echoed)
and NOT the stubbed Data4(0x43, [0,0,0,0]) reply. -/
theorem c10_temperature_shadows_device_type (theNode : Nat)
    (sensor : PointResult) (arb b4 b5 b6 b7 : Nat)
    (h1 : (arb >>> 8) % 256 = 0x06)
    (h2 : arb % 256 = theNode) :
    callback theNode 0x1000 sensor
      { arbitration_id := arb, data := [0x40, 0x00, 0x10, 0x00, b4, b5, b6, b7] } =
    CallbackResult.sent
      { arbitration_id := 0x580 + theNode,
        data := [0x4f, 0x00, 0x10, 0x00, 0x02, b5, b6, b7] } ∧
    callback theNode 0x1000 sensor
      { arbitration_id := arb, data := [0x40, 0x00, 0x10, 0x00, b4, b5, b6, b7] } ≠
    CallbackResult.sent
      { arbitration_id := 0x580 + theNode,
        data := [0x43, 0x00, 0x10, 0x00, 0x00, 0x00, 0x00, 0x00] } := by
  have h : callback theNode 0x1000 sensor
      { arbitration_id := arb, data := [0x40, 0x00, 0x10, 0x00, b4, b5, b6, b7] } =
      CallbackResult.sent
        { arbitration_id := 0x580 + theNode,
          data := [0x4f, 0x00, 0x10, 0x00, 0x02, b5, b6, b7] } := by
    simp [callback, unpackBHB, setByte, h1, h2]
  refine ⟨h, ?_⟩
  rw [h]
  simp

/-- Witness for C10 with node 43 and zeroed trailing request bytes. -/
theorem c10_temperature_shadows_device_type_witness :
    (callback 43 0x1000 PointResult.simMessage
      { arbitration_id := 0x62b, data := [0x40, 0x00, 0x10, 0x00, 0, 0, 0, 0] } =
    CallbackResult.sent
      { arbitration_id := 0x580 + 43,
        data := [0x4f, 0x00, 0x10, 0x00, 0x02, 0, 0, 0] }) ∧
    (callback 43 0x1000 PointResult.simMessage
      { arbitration_id := 0x62b, data := [0x40, 0x00, 0x10, 0x00, 0, 0, 0, 0] } ≠
    CallbackResult.sent
      { arbitration_id := 0x580 + 43,
        data := [0x43, 0x00, 0x10, 0x00, 0x00, 0x00, 0x00, 0x00] }) :=
  c10_temperature_shadows_device_type 43 PointResult.simMessage
    0x62b 0 0 0 0 (by decide) (by decide)

end ThermSDO
